import Mathlib

/-!
Shallow embedding of the data reconciliation / anomaly-explanation pipeline
(`src/data_loader.py` and `src/models.py`) and proofs of the specification
claims about it.

Tables are modelled as lists of rows; a row is a total function from column
names to cells.  Machine floats are modelled by `ℚ`; a pandas NaN cell is
`Option.none`.  Python functions are translated one to one, keeping their
names where Lean allows it.
-/

namespace UidaiPipeline

abbrev Col := String

/-- Python substring test `pat in s`, over the character lists of the strings. -/
def strContains (pat s : String) : Bool :=
  s.toList.tails.any (fun t => List.isPrefixOf pat.toList t)

/-- Helper for `pyTitle`: walks the characters tracking whether the previous
character was alphabetic (Python upper-cases a letter exactly when the previous
character is not a letter, and lower-cases it otherwise). -/
def pyTitleGo : Bool → List Char → List Char
  | _, [] => []
  | prevAlpha, c :: cs =>
    let c2 := if c.isAlpha then (if prevAlpha then c.toLower else c.toUpper) else c
    c2 :: pyTitleGo c.isAlpha cs

/-- Python `str.title()` for the ASCII strings appearing in the state column. -/
def pyTitle (s : String) : String := ⟨pyTitleGo false s.toList⟩

/-- Python `str.strip()`: drop whitespace from both ends. -/
def pyStrip (s : String) : String :=
  ⟨((s.toList.dropWhile Char.isWhitespace).reverse.dropWhile
      Char.isWhitespace).reverse⟩

/-- The `state_mapping` dictionary of `normalize_state_names`
(`src/data_loader.py`), as an association list in source order. -/
def state_mapping : List (String × String) :=
  [("West Bengal", "West Bengal"), ("West Bangal", "West Bengal"),
   ("Wb", "West Bengal"), ("Westbengal", "West Bengal"),
   ("Odisha", "Odisha"), ("Orissa", "Odisha"), ("Orisa", "Odisha"),
   ("Jammu And Kashmir", "Jammu and Kashmir"),
   ("Jammu & Kashmir", "Jammu and Kashmir"),
   ("J&K", "Jammu and Kashmir"), ("Jnk", "Jammu and Kashmir"),
   ("Andaman And Nicobar Islands", "Andaman and Nicobar Islands"),
   ("Andaman & Nicobar Islands", "Andaman and Nicobar Islands"),
   ("Andaman And Nicobar", "Andaman and Nicobar Islands"),
   ("A & N Islands", "Andaman and Nicobar Islands"),
   ("Dadra And Nagar Haveli", "Dadra and Nagar Haveli and Daman and Diu"),
   ("Dadra & Nagar Haveli", "Dadra and Nagar Haveli and Daman and Diu"),
   ("Daman And Diu", "Dadra and Nagar Haveli and Daman and Diu"),
   ("Daman & Diu", "Dadra and Nagar Haveli and Daman and Diu"),
   ("DNH", "Dadra and Nagar Haveli and Daman and Diu"),
   ("D&NH", "Dadra and Nagar Haveli and Daman and Diu"),
   ("Delhi", "NCT of Delhi"), ("New Delhi", "NCT of Delhi"),
   ("Nct Of Delhi", "NCT of Delhi"), ("Delhi Nct", "NCT of Delhi"),
   ("Puducherry", "Puducherry"), ("Pondicherry", "Puducherry"),
   ("Pondi", "Puducherry"),
   ("Uttarakhand", "Uttarakhand"), ("Uttaranchal", "Uttarakhand"),
   ("Uk", "Uttarakhand"),
   ("Uttar Pradesh", "Uttar Pradesh"), ("Up", "Uttar Pradesh"),
   ("Uttarpradesh", "Uttar Pradesh"),
   ("Telangana", "Telangana"), ("Telengana", "Telangana"),
   ("Chhattisgarh", "Chhattisgarh"), ("Chhatisgarh", "Chhattisgarh"),
   ("Cg", "Chhattisgarh"),
   ("Maharashtra", "Maharashtra"), ("Mh", "Maharashtra"),
   ("Madhya Pradesh", "Madhya Pradesh"), ("Mp", "Madhya Pradesh"),
   ("Tamil Nadu", "Tamil Nadu"), ("Tamilnadu", "Tamil Nadu"),
   ("Tn", "Tamil Nadu"),
   ("Andhra Pradesh", "Andhra Pradesh"), ("Andhrapradesh", "Andhra Pradesh"),
   ("Ap", "Andhra Pradesh"),
   ("Arunachal Pradesh", "Arunachal Pradesh"),
   ("Arunachalpradesh", "Arunachal Pradesh"),
   ("Himachal Pradesh", "Himachal Pradesh"),
   ("Himachalpradesh", "Himachal Pradesh"), ("Hp", "Himachal Pradesh"),
   ("Karnataka", "Karnataka"), ("Ka", "Karnataka"),
   ("Kerala", "Kerala"), ("Kl", "Kerala"),
   ("Ladakh", "Ladakh"),
   ("Lakshadweep", "Lakshadweep"),
   ("Goa", "Goa"),
   ("Gujarat", "Gujarat"), ("Gujrat", "Gujarat"),
   ("Haryana", "Haryana"),
   ("Punjab", "Punjab"),
   ("Rajasthan", "Rajasthan"), ("Rajsthan", "Rajasthan"),
   ("Sikkim", "Sikkim"),
   ("Tripura", "Tripura"),
   ("Assam", "Assam"), ("Asam", "Assam"),
   ("Bihar", "Bihar"),
   ("Chandigarh", "Chandigarh"),
   ("Jharkhand", "Jharkhand"),
   ("Manipur", "Manipur"),
   ("Meghalaya", "Meghalaya"),
   ("Mizoram", "Mizoram"),
   ("Nagaland", "Nagaland")]

/-- Per-value semantics of `normalize_state_names` on the state column: strip,
Python title-case, then exact-match replacement through `state_mapping`
(values without a matching key pass through unchanged). -/
def normState (s : String) : String :=
  let t := pyTitle (pyStrip s)
  match state_mapping.lookup t with
  | some v => v
  | none => t

/-- The 36 canonical state / union-territory names (the value set of
`state_mapping`). -/
def canonicalStates : List String :=
  ["West Bengal", "Odisha", "Jammu and Kashmir", "Andaman and Nicobar Islands",
   "Dadra and Nagar Haveli and Daman and Diu", "NCT of Delhi", "Puducherry",
   "Uttarakhand", "Uttar Pradesh", "Telangana", "Chhattisgarh", "Maharashtra",
   "Madhya Pradesh", "Tamil Nadu", "Andhra Pradesh", "Arunachal Pradesh",
   "Himachal Pradesh", "Karnataka", "Kerala", "Ladakh", "Lakshadweep", "Goa",
   "Gujarat", "Haryana", "Punjab", "Rajasthan", "Sikkim", "Tripura", "Assam",
   "Bihar", "Chandigarh", "Jharkhand", "Manipur", "Meghalaya", "Mizoram",
   "Nagaland"]

/-- Enrolment age-bucket classification of `clean_dataframe`
(`data_type == enrolment`): the branch conditions and their order are those of
the source (`0` and `5` and `age`; then `5` and `17` and `age`; then `18` and
`age`). -/
def enrolBucket (c : String) : Option String :=
  if strContains "0" c && strContains "5" c && strContains "age" c then
    some "enrol_0_5"
  else if strContains "5" c && strContains "17" c && strContains "age" c then
    some "enrol_5_17"
  else if strContains "18" c && strContains "age" c then some "enrol_18_plus"
  else none

/-- Biometric age-bucket classification of `clean_dataframe`
(`data_type == biometric`): `0` and `5`; then `5` and `17`; then `17` or `18`. -/
def bioBucket (c : String) : Option String :=
  if strContains "0" c && strContains "5" c then some "bio_0_5"
  else if strContains "5" c && strContains "17" c then some "bio_5_17"
  else if strContains "17" c || strContains "18" c then some "bio_18_plus"
  else none

/-- Demographic age-bucket classification of `clean_dataframe`
(`data_type == demographic`): same shape as the biometric one. -/
def demoBucket (c : String) : Option String :=
  if strContains "0" c && strContains "5" c then some "demo_0_5"
  else if strContains "5" c && strContains "17" c then some "demo_5_17"
  else if strContains "17" c || strContains "18" c then some "demo_18_plus"
  else none

/-- Effect of `df.rename(columns=rename_map)` on the column list: a matched
column takes its canonical name, every other column keeps its own. -/
def applyRenameMap (bucket : String → Option String) (cols : List Col) :
    List Col :=
  cols.map (fun c => (bucket c).getD c)

/-- Column name contains both "0" and "5". -/
def has05 (c : String) : Bool := strContains "0" c && strContains "5" c

/-- Column name contains both "5" and "17". -/
def has517 (c : String) : Bool := strContains "5" c && strContains "17" c

/-- Column name contains "17" or "18". -/
def has1718 (c : String) : Bool := strContains "17" c || strContains "18" c

/-- Column name contains "18". -/
def has18 (c : String) : Bool := strContains "18" c

/-- Column name contains "age". -/
def hasAge (c : String) : Bool := strContains "age" c


/-! ### Keyed tables and the merge engine

The output type of `aggregate_data` and the working type of the merge in
`load_processed_data`.  The grouping key (the subset of date, state,
district, pincode present in the input) is abstracted into one type `K`; the
value columns carry the cells, `none` standing for NaN. -/

/-- A table keyed by the grouping key: a list of value-column names and the
rows, each row a key paired with its cells. -/
structure KTable (K : Type) where
  valueCols : List Col
  rows : List (K × (Col → Option ℚ))

/-- The key column of a table, in row order. -/
def KTable.keys {K : Type} (t : KTable K) : List K := t.rows.map Prod.fst

/-- The empty data frame `pd.DataFrame()`. -/
def KTable.empty {K : Type} : KTable K := ⟨[], []⟩

/-- Cell of row `i` at column `c` (`none` when the index is out of range or
the cell is NaN). -/
def KTable.cellAt {K : Type} (t : KTable K) (i : ℕ) (c : Col) : Option ℚ :=
  match t.rows.get? i with
  | some r => r.2 c
  | none => none

/-- Column sum over a list of rows, skipping NaN cells the way the pandas
default `sum` does. -/
def sumCells {K : Type} (rows : List (K × (Col → Option ℚ))) (c : Col) : ℚ :=
  (rows.map (fun r => (r.2 c).getD 0)).sum

/-- The `aggregate_data` function of `src/data_loader.py`: empty input gives
an empty frame; the value columns are those whose name contains the category
string; with no value column the result is empty; otherwise group by key and
sum each value column per group (pandas `groupby` emits one row per distinct
key). -/
def aggregate_data {K : Type} [DecidableEq K] (df : KTable K) (pfx : String) :
    KTable K :=
  if df.rows.isEmpty then KTable.empty
  else
    let value_cols := df.valueCols.filter (fun c => strContains pfx c)
    if value_cols.isEmpty then KTable.empty
    else
      { valueCols := value_cols,
        rows := df.keys.dedup.map (fun k =>
          (k, fun c =>
            some (sumCells (df.rows.filter (fun r => decide (r.1 = k))) c))) }

/-- Row lookup by key, for the unique-key frames the joins receive. -/
def lookupRow {K : Type} [DecidableEq K] (t : KTable K) (k : K) :
    Option (Col → Option ℚ) :=
  (t.rows.find? (fun r => decide (r.1 = k))).map Prod.snd

/-- The call `pd.merge(a, b, on=join_keys, how=outer)` for key-unique frames
with disjoint value columns (the shape the pipeline produces): the result has
one row per key of either side, left keys first, and each value column takes
the cell of its own side, `none` (NaN) where that side lacks the key. -/
def outerMerge {K : Type} [DecidableEq K] (a b : KTable K) : KTable K :=
  { valueCols := a.valueCols ++ b.valueCols,
    rows :=
      (a.keys ++ b.keys.filter (fun k => decide (k ∉ a.keys))).map (fun k =>
        (k, fun c =>
          if c ∈ a.valueCols then
            match lookupRow a k with
            | some v => v c
            | none => none
          else
            match lookupRow b k with
            | some v => v c
            | none => none)) }

/-- One accumulation step of the merge in `load_processed_data`: keep the
next frame if the accumulator is empty, keep the accumulator if the next
frame is empty, otherwise outer-join the two. -/
def mergeAccum {K : Type} [DecidableEq K] (a b : KTable K) : KTable K :=
  if a.rows.isEmpty then b
  else if b.rows.isEmpty then a
  else outerMerge a b

/-- Step 4 of `load_processed_data`: enrolment joined with biometric, the
result joined with demographic. -/
def mergeStep {K : Type} [DecidableEq K] (e b d : KTable K) : KTable K :=
  mergeAccum (mergeAccum e b) d

/-- The line `merged = merged.fillna(0)`: every NaN cell becomes 0. -/
def fillna {K : Type} (t : KTable K) : KTable K :=
  { valueCols := t.valueCols,
    rows := t.rows.map (fun r => (r.1, fun c => some ((r.2 c).getD 0))) }

/-- One grand-total assignment
`merged[name] = merged.filter(like=lk).sum(axis=1)`: append the column
`name` holding, in each row, the sum of the columns whose name contains
`lk`. -/
def addTotalCol {K : Type} (t : KTable K) (name lk : String) : KTable K :=
  let likeCols := t.valueCols.filter (fun c => strContains lk c)
  { valueCols := t.valueCols ++ [name],
    rows := t.rows.map (fun r =>
      (r.1, fun c =>
        if c = name then some ((likeCols.map (fun lc => (r.2 lc).getD 0)).sum)
        else r.2 c)) }

/-- Step 5 of `load_processed_data`: the three grand totals, in source
order. -/
def addTotals {K : Type} (t : KTable K) : KTable K :=
  addTotalCol (addTotalCol (addTotalCol t "total_enrol" "enrol")
    "total_bio" "bio") "total_demo" "demo"

/-- The merge-and-derive part of `load_processed_data` (steps 4 and 5), from
the three aggregated category tables to the final merged table. -/
def merge_and_total {K : Type} [DecidableEq K] (e b d : KTable K) : KTable K :=
  addTotals (fillna (mergeStep e b d))

/-- The canonical enrolment value columns after age-bucket renaming. -/
def enrolCanon : List Col := ["enrol_0_5", "enrol_5_17", "enrol_18_plus"]

/-- The canonical biometric value columns after age-bucket renaming. -/
def bioCanon : List Col := ["bio_0_5", "bio_5_17", "bio_18_plus"]

/-- The canonical demographic value columns after age-bucket renaming. -/
def demoCanon : List Col := ["demo_0_5", "demo_5_17", "demo_18_plus"]

/-- Concrete one-row enrolment aggregate used by witnesses. -/
def eW : KTable ℕ :=
  ⟨["enrol_0_5"], [(0, fun c => if c = "enrol_0_5" then some 10 else none)]⟩

/-- Concrete one-row biometric aggregate used by witnesses. -/
def bW : KTable ℕ :=
  ⟨["bio_0_5"], [(1, fun c => if c = "bio_0_5" then some 5 else none)]⟩

/-! ### The anomaly engine (src/models.py) -/

/-- A row of the analysis table handed to the anomaly engine: the district
key and the numeric cells. -/
structure ARow where
  district : String
  cell : Col → ℚ

/-- The analysis table: the column names, a numeric-dtype flag per column,
and the rows. -/
structure ATable where
  cols : List Col
  numeric : Col → Bool
  rows : List ARow

/-- Cell of row `i` at column `c` (`none` out of range). -/
def ATable.cellAt (t : ATable) (i : ℕ) (c : Col) : Option ℚ :=
  (t.rows.get? i).map (fun r => r.cell c)

/-- Feature selection of `train_anomaly_model`: the columns whose name
contains "bio_", "demo_" or "enrol_", then the numeric ones of those, in
source order. -/
def featureCols (df : ATable) : List Col :=
  (df.cols.filter (fun c =>
    strContains "bio_" c || strContains "demo_" c ||
      strContains "enrol_" c)).filter df.numeric

/-- The two classes the IsolationForest predictor emits, with the integer
codes documented at the call site (−1 anomaly, 1 normal). -/
inductive IFClass
  | anomaly
  | normal
deriving DecidableEq

/-- Integer code of a prediction class. -/
def IFClass.toInt : IFClass → ℤ
  | IFClass.anomaly => -1
  | IFClass.normal => 1

/-- Abstract stand-in for a fitted IsolationForest: a decision function and
a class predictor over a feature row.  The library internals are external to
the repository, so the fit is a parameter of the embedding. -/
structure FittedModel where
  score : (Col → ℚ) → ℚ
  classify : (Col → ℚ) → IFClass

/-- A feature-matrix row `X` of `train_anomaly_model`: the row restricted to
the feature columns (`df[feature_cols].fillna(0)`). -/
def restrictRow (fcols : List Col) (r : ARow) : Col → ℚ :=
  fun c => if c ∈ fcols then r.cell c else 0

/-- Python column assignment `df[name] = series` on an analysis table:
overwrite in place when the column exists, append it otherwise; the written
column is numeric. -/
def addColATable (t : ATable) (name : Col) (f : ARow → ℚ) : ATable :=
  { cols := if name ∈ t.cols then t.cols else t.cols ++ [name],
    numeric := fun c => if c = name then true else t.numeric c,
    rows := t.rows.map (fun r =>
      { district := r.district,
        cell := fun c => if c = name then f r else r.cell c }) }

/-- A heap of table objects, for the in-place effects of the engine. -/
abbrev Heap := ℕ → ATable

/-- The `train_anomaly_model` function of `src/models.py`, acting on the
table object at `ref`: with no numeric feature column it returns
`(None, None)`, leaving the heap alone and losing the table; otherwise it
fits a model, assigns `anomaly_score` and `is_anomaly` on the caller's
object, and returns the model with the same object (the reference). -/
def train_anomaly_model (fit : ATable → FittedModel) (h : Heap) (ref : ℕ) :
    Heap × Option FittedModel × Option ℕ :=
  let df := h ref
  let fcols := featureCols df
  if fcols.isEmpty then (h, none, none)
  else
    let m := fit df
    let df1 := addColATable df "anomaly_score"
      (fun r => m.score (restrictRow fcols r))
    let df2 := addColATable df1 "is_anomaly"
      (fun r => ((m.classify (restrictRow fcols r)).toInt : ℚ))
    (fun r2 => if r2 = ref then df2 else h r2, some m, some ref)

/-- Arithmetic mean of a list of rationals (pandas mean). -/
def meanOf (l : List ℚ) : ℚ := l.sum / l.length

/-- pandas sample variance (the square of the `std` with `ddof = 1`):
`none` for a list of at most one value, where pandas yields NaN. -/
def sampleVar (l : List ℚ) : Option ℚ :=
  if l.length ≤ 1 then none
  else
    some ((l.map (fun x => (x - meanOf l) ^ 2)).sum / ((l.length : ℚ) - 1))

/-- The z-score trigger of `explain_row` for one metric: the source guards
with `std > 0` (false on the NaN std of a one-row group) and then tests
`(x − mean)/std > 3` with `std = sqrt var`; over the reals that conjunction
is equivalent to `0 < var ∧ 0 < d ∧ 9·var < d²` (proved in
`zTest_eq_real`), the decidable square form used here. -/
def zTest (d : ℚ) (var : Option ℚ) : Bool :=
  match var with
  | none => false
  | some v => decide (0 < v) && decide (0 < d) && decide (9 * v < d ^ 2)

/-- The rows of the current view lying in one district (the groupby
partition of `generate_anomaly_explanations`). -/
def districtRowsOf (t : ATable) (d : String) : List ARow :=
  t.rows.filter (fun r => r.district == d)

/-- The lines computing `total_bio`/`total_demo` when absent: append the
like-column row sum if the column is missing and like columns exist. -/
def withTotal (t : ATable) (total lk : String) : ATable :=
  let likeCols := t.cols.filter (fun c => strContains lk c)
  if total ∈ t.cols then t
  else if likeCols.isEmpty then t
  else addColATable t total (fun r => (likeCols.map r.cell).sum)

/-- District mean of a metric column over the current view. -/
def districtMean (t : ATable) (d : String) (c : Col) : ℚ :=
  meanOf ((districtRowsOf t d).map (fun r => r.cell c))

/-- District sample variance of a metric column over the current view
(`none` where pandas has a NaN std). -/
def districtVar (t : ATable) (d : String) (c : Col) : Option ℚ :=
  sampleVar ((districtRowsOf t d).map (fun r => r.cell c))

/-- The reasons `explain_row` can append, in source order. -/
inductive Reason
  | bioSpike
  | demoSpike
  | aiFlag
deriving DecidableEq

/-- The `reasons` list of `explain_row` before the fallback: a biometric
spike when the biometric z-score trigger fires, then a demographic one. -/
def baseTags (t : ATable) (r : ARow) : List Reason :=
  (if zTest (r.cell "total_bio" - districtMean t r.district "total_bio")
      (districtVar t r.district "total_bio") then [Reason.bioSpike] else [])
    ++ (if zTest (r.cell "total_demo" - districtMean t r.district
          "total_demo")
        (districtVar t r.district "total_demo") then [Reason.demoSpike]
      else [])

/-- The full `reasons` list of `explain_row`: the AI fallback fires exactly
when no statistical reason fired and `row.get(is_anomaly) == -1` (a missing
column compares unequal). -/
def explainReasonTags (t : ATable) (r : ARow) : List Reason :=
  let base := baseTags t r
  if base.isEmpty && decide ("is_anomaly" ∈ t.cols) &&
      decide (r.cell "is_anomaly" = -1) then [Reason.aiFlag]
  else base

/-- The sentence for one reason; the interpolated float formatting of the
source is abstracted to the printed rational. -/
def renderReason (r : ARow) : Reason → String
  | Reason.bioSpike =>
      "Biometric Updates (" ++ toString (r.cell "total_bio") ++
        ") are above district avg."
  | Reason.demoSpike =>
      "Demographic Updates (" ++ toString (r.cell "total_demo") ++
        ") are above district avg."
  | Reason.aiFlag => "Unusual combination of update types detected by AI."

/-- The `anomaly_reason` value of one row: the reasons joined with the
delimiter, "Normal" when none. -/
def anomalyReasonOf (t : ATable) (r : ARow) : String :=
  let tags := explainReasonTags t r
  if tags.isEmpty then "Normal"
  else String.intercalate " | " (tags.map (renderReason r))

/-- The `generate_anomaly_explanations` function of `src/models.py`: fill in
the missing totals, then compute every row's reason against the district
statistics of the current view; `none` models the KeyError raised when the
grouped total columns are still missing. -/
def generate_anomaly_explanations (t : ATable) :
    Option (ATable × List String) :=
  let t1 := withTotal t "total_bio" "bio_"
  let t2 := withTotal t1 "total_demo" "demo_"
  if decide ("total_bio" ∈ t2.cols) && decide ("total_demo" ∈ t2.cols) then
    some (t2, t2.rows.map (fun r => anomalyReasonOf t2 r))
  else none

/-- The `load_or_train_model` function of `src/models.py`: train fresh, then
explain.  When training returned `None` in place of the table, the
explanation call dereferences `None` and raises; `none` models that
failure. -/
def load_or_train_model (fit : ATable → FittedModel) (h : Heap) (ref : ℕ) :
    Option (Heap × Option FittedModel × ATable × List String) :=
  match train_anomaly_model fit h ref with
  | (h1, m, some r1) =>
    match generate_anomaly_explanations (h1 r1) with
    | some (t2, reasons) => some (h1, m, t2, reasons)
    | none => none
  | (_, _, none) => none

/-- A cell function holding a biometric total, a demographic total and an
is_anomaly code. -/
def mkCells (bio demo flag : ℚ) : Col → ℚ :=
  fun c =>
    if c = "total_bio" then bio
    else if c = "total_demo" then demo
    else if c = "is_anomaly" then flag
    else 0

/-- One row of the nine-row explanation scenario, in district D. -/
def mkRowD (bio : ℚ) : ARow := ⟨"D", mkCells bio 0 1⟩

/-- The nine-row single-district scenario table: total_bio values eight ones
and one hundred, demographic totals zero, no row ML-flagged. -/
def T5 : ATable :=
  { cols := ["district", "total_bio", "total_demo", "is_anomaly"],
    numeric := fun _ => true,
    rows := [mkRowD 1, mkRowD 1, mkRowD 1, mkRowD 1, mkRowD 1, mkRowD 1,
      mkRowD 1, mkRowD 1, mkRowD 100] }

/-- A table with no bio/demo/enrol feature column. -/
def T3 : ATable :=
  { cols := ["date", "pincode"],
    numeric := fun _ => true,
    rows := [⟨"X", fun _ => 0⟩] }

/-- A three-row table whose district A has exactly one row. -/
def T8 : ATable :=
  { cols := ["district", "total_bio", "total_demo", "is_anomaly"],
    numeric := fun _ => true,
    rows := [⟨"A", mkCells 5 0 1⟩, ⟨"B", mkCells 7 0 1⟩,
      ⟨"B", mkCells 9 0 1⟩] }

/-- A one-row table that already carries an `is_anomaly` column holding 5
next to a numeric feature column. -/
def T9 : ATable :=
  { cols := ["bio_0_5", "is_anomaly"],
    numeric := fun _ => true,
    rows := [⟨"A", fun c => if c = "bio_0_5" then 1
      else if c = "is_anomaly" then 5 else 0⟩] }

/-- A one-row table with one numeric feature column and no score columns. -/
def T9w : ATable :=
  { cols := ["bio_0_5"],
    numeric := fun _ => true,
    rows := [⟨"A", fun c => if c = "bio_0_5" then 1 else 0⟩] }

/-- A concrete fit: constant decision function, every row classed normal. -/
def fit0 : ATable → FittedModel :=
  fun _ => ⟨fun _ => 0, fun _ => IFClass.normal⟩

end UidaiPipeline

/-! ### Theorems -/

namespace UidaiPipeline

/-- C4: the claim states that normalizing any of the 36 canonical state names
returns it unchanged.  This fails for the merged union territory: its name
title-cases to a string that is not a key of `state_mapping`, so it passes
through title-cased, which differs from the canonical spelling. -/
theorem C4_counterexample :
    "Dadra and Nagar Haveli and Daman and Diu" ∈ canonicalStates ∧
    normState "Dadra and Nagar Haveli and Daman and Diu" ≠
      "Dadra and Nagar Haveli and Daman and Diu" := by
  constructor
  · decide
  · decide

/-- C4 (amended): state normalization is a fixed point on 35 of the 36
canonical names; the one exception, "Dadra and Nagar Haveli and Daman and
Diu", is mapped to its Python title-cased variant
"Dadra And Nagar Haveli And Daman And Diu". -/
theorem C4_amended :
    ((canonicalStates.filter
        (fun s => s != "Dadra and Nagar Haveli and Daman and Diu")).all
      (fun s => normState s == s)) = true ∧
    normState "Dadra and Nagar Haveli and Daman and Diu" =
      "Dadra And Nagar Haveli And Daman And Diu" := by
  constructor
  · decide
  · decide

/-- C6: the claim states that, in every category, a column containing both
"0" and "5" is classified as the 0_5 bucket.  In the enrolment category the
source additionally requires the substring "age", so the column name "05" is
left unmatched there. -/
theorem C6_counterexample :
    strContains "0" "05" = true ∧ strContains "5" "05" = true ∧
    enrolBucket "05" ≠ some "enrol_0_5" ∧ enrolBucket "05" = none := by
  refine ⟨by decide, by decide, by decide, by decide⟩

/-- C6 (amended): the age-bucket classification is by substring heuristics in
first-match order 0_5, then 5_17, then the last branch; the enrolment category
requires the extra substring "age" in every branch and matches "18" in its
last branch, while the biometric and demographic categories match "17" or
"18" in their last branch; matched columns are renamed to the
category-prefixed canonical name. -/
theorem C6_amended (c : String) (bucket : String → Option String) (n : Col)
    (cols : List Col) (hmatch : bucket c = some n) :
    (applyRenameMap bucket (c :: cols) = n :: applyRenameMap bucket cols)
    ∧ (enrolBucket c = some "enrol_0_5" ↔ (has05 c && hasAge c) = true)
    ∧ (enrolBucket c = some "enrol_5_17" ↔
        (!(has05 c && hasAge c) && (has517 c && hasAge c)) = true)
    ∧ (enrolBucket c = some "enrol_18_plus" ↔
        (!(has05 c && hasAge c) && !(has517 c && hasAge c) &&
          (has18 c && hasAge c)) = true)
    ∧ (enrolBucket c = none ↔
        (!((has05 c && hasAge c) || (has517 c && hasAge c) ||
           (has18 c && hasAge c))) = true)
    ∧ (bioBucket c = some "bio_0_5" ↔ has05 c = true)
    ∧ (bioBucket c = some "bio_5_17" ↔ (!has05 c && has517 c) = true)
    ∧ (bioBucket c = some "bio_18_plus" ↔
        (!has05 c && !has517 c && has1718 c) = true)
    ∧ (bioBucket c = none ↔ (!(has05 c || has517 c || has1718 c)) = true)
    ∧ (demoBucket c = some "demo_0_5" ↔ has05 c = true)
    ∧ (demoBucket c = some "demo_5_17" ↔ (!has05 c && has517 c) = true)
    ∧ (demoBucket c = some "demo_18_plus" ↔
        (!has05 c && !has517 c && has1718 c) = true)
    ∧ (demoBucket c = none ↔ (!(has05 c || has517 c || has1718 c)) = true) := by
  refine ⟨by simp [applyRenameMap, hmatch], ?_⟩
  cases h0 : strContains "0" c <;> cases h5 : strContains "5" c <;>
    cases h17 : strContains "17" c <;> cases h18c : strContains "18" c <;>
    cases hage : strContains "age" c <;>
    simp_all [enrolBucket, bioBucket, demoBucket, has05, has517, has1718,
      has18, hasAge]

/-- Witness for C6 (amended) at concrete column names: the classification of
"age_0_5" in the enrolment category and the rename of a matched column. -/
theorem C6_amended_witness :
    applyRenameMap bioBucket ["bio_age_0_5", "district"] =
      ["bio_0_5", "district"] ∧
    enrolBucket "age_0_5" = some "enrol_0_5" := by
  constructor
  · have h := C6_amended "bio_age_0_5" bioBucket "bio_0_5" ["district"]
      (by decide)
    exact h.1.trans (by decide)
  · exact (C6_amended "age_0_5" bioBucket "bio_0_5" [] (by decide)).2.1.mpr
      (by decide)


/-- C7: after aggregation no two rows of a single category table share the
same grouping key — the key column of `aggregate_data df pfx` has no
duplicates, for every input table and category string. -/
theorem C7_aggregate_keys_nodup {K : Type} [DecidableEq K] (df : KTable K)
    (pfx : String) : (aggregate_data df pfx).keys.Nodup := by
  unfold aggregate_data
  split
  · simp [KTable.empty, KTable.keys]
  · dsimp only
    split
    · simp [KTable.empty, KTable.keys]
    · simpa [KTable.keys, List.map_map, Function.comp_def] using
        List.nodup_dedup (df.keys)

/-- An empty frame has an empty key column. -/
theorem keys_eq_nil_of_isEmpty {K : Type} {t : KTable K}
    (h : t.rows.isEmpty = true) : t.keys = [] := by
  rw [List.isEmpty_iff] at h
  simp [KTable.keys, h]

/-- The key column of an outer join: left keys, then right-only keys. -/
theorem outerMerge_keys {K : Type} [DecidableEq K] (a b : KTable K) :
    (outerMerge a b).keys =
      a.keys ++ b.keys.filter (fun k => decide (k ∉ a.keys)) := by
  simp [outerMerge, KTable.keys, List.map_map, Function.comp_def]

/-- One merge-accumulation step sends key-unique frames to a key-unique
frame whose keys are exactly the union of the two key sets. -/
theorem mergeAccum_keys_spec {K : Type} [DecidableEq K] {a b : KTable K}
    (ha : a.keys.Nodup) (hb : b.keys.Nodup) :
    (mergeAccum a b).keys.Nodup ∧
      ∀ k, k ∈ (mergeAccum a b).keys ↔ k ∈ a.keys ∨ k ∈ b.keys := by
  unfold mergeAccum
  split
  · rename_i h
    have hak : a.keys = [] := keys_eq_nil_of_isEmpty h
    exact ⟨hb, by simp [hak]⟩
  · split
    · rename_i h1 h2
      have hbk : b.keys = [] := keys_eq_nil_of_isEmpty h2
      exact ⟨ha, by simp [hbk]⟩
    · constructor
      · rw [outerMerge_keys]
        refine ha.append (hb.filter _) ?_
        intro x hx hxf
        have hp := List.of_mem_filter hxf
        simp only [decide_eq_true_eq] at hp
        exact hp hx
      · intro k
        rw [outerMerge_keys]
        simp only [List.mem_append, List.mem_filter, decide_eq_true_eq]
        tauto

/-- Zero-filling does not change the key column. -/
theorem fillna_keys {K : Type} (t : KTable K) : (fillna t).keys = t.keys := by
  simp [fillna, KTable.keys, List.map_map, Function.comp_def]

/-- Appending a grand-total column does not change the key column. -/
theorem addTotalCol_keys {K : Type} (t : KTable K) (n lk : String) :
    (addTotalCol t n lk).keys = t.keys := by
  simp [addTotalCol, KTable.keys, List.map_map, Function.comp_def]

/-- The full merge-and-derive step keeps the key column of the join. -/
theorem merge_and_total_keys {K : Type} [DecidableEq K] (e b d : KTable K) :
    (merge_and_total e b d).keys = (mergeStep e b d).keys := by
  simp [merge_and_total, addTotals, addTotalCol_keys, fillna_keys]

/-- C2: every grouping key that occurs in at least one of the three
aggregated input tables occurs in exactly one row of the merged table, and a
key occurring in none occurs in no row — also when one or more inputs are
empty, whose key columns are then empty.  The inputs are assumed key-unique,
which `C7_aggregate_keys_nodup` establishes for every aggregation output. -/
theorem C2_outer_join_complete {K : Type} [DecidableEq K] (e b d : KTable K)
    (he : e.keys.Nodup) (hb : b.keys.Nodup) (hd : d.keys.Nodup) (k : K) :
    (merge_and_total e b d).keys.count k =
      if k ∈ e.keys ∨ k ∈ b.keys ∨ k ∈ d.keys then 1 else 0 := by
  have h1 := mergeAccum_keys_spec he hb
  have h2 := mergeAccum_keys_spec h1.1 hd
  rw [merge_and_total_keys]
  unfold mergeStep
  rw [List.count_eq_of_nodup h2.1]
  simp only [h2.2 k, h1.2 k, or_assoc]

/-- Witness for C2: a one-row enrolment table, a one-row biometric table with
a different key, an empty demographic table, at the enrolment key. -/
theorem C2_witness :
    (merge_and_total eW bW (KTable.empty : KTable ℕ)).keys.count 0 =
      if 0 ∈ eW.keys ∨ 0 ∈ bW.keys ∨
          0 ∈ (KTable.empty : KTable ℕ).keys then 1 else 0 :=
  C2_outer_join_complete eW bW KTable.empty (by decide) (by decide)
    (by decide) 0

/-- Summing a guarded term over a list equals summing the plain term over the
filtered list. -/
theorem sum_map_ite (canon cols : List Col) (v : Col → ℚ) :
    (canon.map (fun c => if c ∈ cols then v c else 0)).sum =
      ((canon.filter (fun c => decide (c ∈ cols))).map v).sum := by
  induction canon with
  | nil => simp
  | cons c cs ih => by_cases h : c ∈ cols <;> simp [h, ih]

/-- A like-filtered column sum over a duplicate-free column list, all of
whose like-matching members lie in a duplicate-free canonical list of
like-matching names, equals the canonical sum with absent columns counting
as zero. -/
theorem filter_like_sum (cols canon : List Col) (v : Col → ℚ) (lk : String)
    (hN : cols.Nodup) (hc : canon.Nodup)
    (hsub : ∀ c ∈ cols, strContains lk c = true → c ∈ canon)
    (hlike : ∀ c ∈ canon, strContains lk c = true) :
    ((cols.filter (fun c => strContains lk c)).map v).sum =
      (canon.map (fun c => if c ∈ cols then v c else 0)).sum := by
  rw [sum_map_ite]
  refine List.Perm.sum_eq (List.Perm.map v ?_)
  rw [List.perm_ext_iff_of_nodup (hN.filter _) (hc.filter _)]
  intro x
  simp only [List.mem_filter, decide_eq_true_eq]
  constructor
  · rintro ⟨hx, hlx⟩
    exact ⟨hsub x hx hlx, hx⟩
  · rintro ⟨hxc, hxcols⟩
    exact ⟨hxcols, hlike x hxc⟩

/-- The cell of a table after one grand-total assignment: the new column
holds the like-filtered row sum, every other column is unchanged. -/
theorem addTotalCol_cellAt {K : Type} (t : KTable K) (name lk : String)
    (i : ℕ) (c : Col) :
    (addTotalCol t name lk).cellAt i c =
      if c = name then
        (t.rows.get? i).map (fun r =>
          ((t.valueCols.filter (fun x => strContains lk x)).map
            (fun lc => (r.2 lc).getD 0)).sum)
      else t.cellAt i c := by
  unfold addTotalCol KTable.cellAt
  simp only [List.get?_eq_getElem?, List.getElem?_map]
  cases hr : t.rows[i]? with
  | none => by_cases hc : c = name <;> simp [hc]
  | some r => by_cases hc : c = name <;> simp [hc]

/-- Grand-total assignments keep the row count. -/
theorem addTotalCol_rows_length {K : Type} (t : KTable K) (n lk : String) :
    (addTotalCol t n lk).rows.length = t.rows.length := by
  simp [addTotalCol]

/-- The value columns after one grand-total assignment. -/
theorem addTotalCol_valueCols {K : Type} (t : KTable K) (n lk : String) :
    (addTotalCol t n lk).valueCols = t.valueCols ++ [n] := rfl

/-- Zero-filling keeps the value columns. -/
theorem fillna_valueCols {K : Type} (t : KTable K) :
    (fillna t).valueCols = t.valueCols := rfl

/-- Zero-filling keeps the row count. -/
theorem fillna_rows_length {K : Type} (t : KTable K) :
    (fillna t).rows.length = t.rows.length := by
  simp [fillna]

/-- The value columns after all three grand-total assignments. -/
theorem addTotals_valueCols {K : Type} (t : KTable K) :
    (addTotals t).valueCols =
      t.valueCols ++ ["total_enrol"] ++ ["total_bio"] ++ ["total_demo"] :=
  rfl

/-- All three grand-total assignments keep the row count. -/
theorem addTotals_rows_length {K : Type} (t : KTable K) :
    (addTotals t).rows.length = t.rows.length := by
  simp [addTotals, addTotalCol_rows_length]

/-- A column other than the three grand totals is unchanged by the three
grand-total assignments. -/
theorem addTotals_cellAt_other {K : Type} (t : KTable K) (i : ℕ) (c : Col)
    (hc1 : c ≠ "total_enrol") (hc2 : c ≠ "total_bio")
    (hc3 : c ≠ "total_demo") :
    (addTotals t).cellAt i c = t.cellAt i c := by
  unfold addTotals
  rw [addTotalCol_cellAt, if_neg hc3, addTotalCol_cellAt, if_neg hc2,
    addTotalCol_cellAt, if_neg hc1]

/-- The three grand-total cells of `addTotals t`, for a table `t` that does
not already carry the first two total columns: each is the like-filtered row
sum over the original value columns. -/
theorem addTotals_cellAt {K : Type} (t : KTable K)
    (h1 : "total_enrol" ∉ t.valueCols) (h2 : "total_bio" ∉ t.valueCols)
    (i : ℕ) :
    ((addTotals t).cellAt i "total_enrol" =
      (t.rows.get? i).map (fun r =>
        ((t.valueCols.filter (fun x => strContains "enrol" x)).map
          (fun lc => (r.2 lc).getD 0)).sum)) ∧
    ((addTotals t).cellAt i "total_bio" =
      (t.rows.get? i).map (fun r =>
        ((t.valueCols.filter (fun x => strContains "bio" x)).map
          (fun lc => (r.2 lc).getD 0)).sum)) ∧
    ((addTotals t).cellAt i "total_demo" =
      (t.rows.get? i).map (fun r =>
        ((t.valueCols.filter (fun x => strContains "demo" x)).map
          (fun lc => (r.2 lc).getD 0)).sum)) := by
  unfold addTotals
  refine ⟨?_, ?_, ?_⟩
  · rw [addTotalCol_cellAt, if_neg (by decide), addTotalCol_cellAt,
      if_neg (by decide), addTotalCol_cellAt, if_pos rfl]
  · rw [addTotalCol_cellAt, if_neg (by decide), addTotalCol_cellAt,
      if_pos rfl, addTotalCol_valueCols]
    have hfe : ((t.valueCols ++ ["total_enrol"]).filter
        (fun x => strContains "bio" x)) =
        t.valueCols.filter (fun x => strContains "bio" x) := by
      rw [List.filter_append,
        show (List.filter (fun x => strContains "bio" x) ["total_enrol"])
          = [] from by decide, List.append_nil]
    rw [hfe]
    show ((t.rows.map _).get? i).map _ = _
    simp only [List.get?_eq_getElem?, List.getElem?_map]
    cases hr : t.rows[i]? with
    | none => simp
    | some r =>
      simp only [Option.map_some']
      congr 1
      refine congrArg List.sum (List.map_congr_left ?_)
      intro lc hlc
      have hlc2 : lc ∈ t.valueCols := (List.mem_filter.1 hlc).1
      have hne : lc ≠ "total_enrol" := fun he => h1 (he ▸ hlc2)
      simp [addTotalCol, hne]
  · rw [addTotalCol_cellAt, if_pos rfl, addTotalCol_valueCols,
      addTotalCol_valueCols]
    have hfe : (((t.valueCols ++ ["total_enrol"]) ++ ["total_bio"]).filter
        (fun x => strContains "demo" x)) =
        t.valueCols.filter (fun x => strContains "demo" x) := by
      rw [List.filter_append, List.filter_append,
        show (List.filter (fun x => strContains "demo" x) ["total_enrol"])
          = [] from by decide,
        show (List.filter (fun x => strContains "demo" x) ["total_bio"])
          = [] from by decide, List.append_nil, List.append_nil]
    rw [hfe]
    show ((t.rows.map _).map _ |>.get? i).map _ = _
    simp only [List.get?_eq_getElem?, List.getElem?_map]
    cases hr : t.rows[i]? with
    | none => simp
    | some r =>
      simp only [Option.map_some']
      congr 1
      refine congrArg List.sum (List.map_congr_left ?_)
      intro lc hlc
      have hlc2 : lc ∈ t.valueCols := (List.mem_filter.1 hlc).1
      have hne1 : lc ≠ "total_enrol" := fun he => h1 (he ▸ hlc2)
      have hne2 : lc ≠ "total_bio" := fun he => h2 (he ▸ hlc2)
      simp [addTotalCol, hne1, hne2]

/-- The cell of a row fetched through `get?`. -/
theorem cellAt_eq_of_get? {K : Type} {t : KTable K} {i : ℕ}
    {r : K × (Col → Option ℚ)} (hr : t.rows.get? i = some r) (c : Col) :
    t.cellAt i c = r.2 c := by
  unfold KTable.cellAt
  rw [hr]

/-- One merge-accumulation step of value-column-disjoint frames with
duplicate-free value columns yields duplicate-free value columns drawn from
the two inputs. -/
theorem mergeAccum_valueCols_spec {K : Type} [DecidableEq K] {a b : KTable K}
    (ha : a.valueCols.Nodup) (hb : b.valueCols.Nodup)
    (hdisj : ∀ c, c ∈ a.valueCols → c ∈ b.valueCols → False) :
    (mergeAccum a b).valueCols.Nodup ∧
      ∀ c ∈ (mergeAccum a b).valueCols,
        c ∈ a.valueCols ∨ c ∈ b.valueCols := by
  unfold mergeAccum
  split
  · exact ⟨hb, fun c hc => Or.inr hc⟩
  · split
    · exact ⟨ha, fun c hc => Or.inl hc⟩
    · refine ⟨ha.append hb hdisj, fun c hc => ?_⟩
      exact List.mem_append.1 hc

/-- Membership in the canonical enrolment column list, spelt out. -/
theorem mem_enrolCanon_iff (c : Col) :
    c ∈ enrolCanon ↔
      c = "enrol_0_5" ∨ c = "enrol_5_17" ∨ c = "enrol_18_plus" := by
  simp [enrolCanon]

/-- Membership in the canonical biometric column list, spelt out. -/
theorem mem_bioCanon_iff (c : Col) :
    c ∈ bioCanon ↔ c = "bio_0_5" ∨ c = "bio_5_17" ∨ c = "bio_18_plus" := by
  simp [bioCanon]

/-- Membership in the canonical demographic column list, spelt out. -/
theorem mem_demoCanon_iff (c : Col) :
    c ∈ demoCanon ↔
      c = "demo_0_5" ∨ c = "demo_5_17" ∨ c = "demo_18_plus" := by
  simp [demoCanon]

/-- Canonical enrolment columns contain "enrol" and neither "bio" nor
"demo". -/
theorem enrolCanon_like :
    ∀ c, c ∈ enrolCanon →
      strContains "enrol" c = true ∧ strContains "bio" c = false ∧
        strContains "demo" c = false := by
  intro c hc
  rw [mem_enrolCanon_iff] at hc
  rcases hc with rfl | rfl | rfl <;> exact ⟨by decide, by decide, by decide⟩

/-- Canonical biometric columns contain "bio" and neither "enrol" nor
"demo". -/
theorem bioCanon_like :
    ∀ c, c ∈ bioCanon →
      strContains "enrol" c = false ∧ strContains "bio" c = true ∧
        strContains "demo" c = false := by
  intro c hc
  rw [mem_bioCanon_iff] at hc
  rcases hc with rfl | rfl | rfl <;> exact ⟨by decide, by decide, by decide⟩

/-- Canonical demographic columns contain "demo" and neither "enrol" nor
"bio". -/
theorem demoCanon_like :
    ∀ c, c ∈ demoCanon →
      strContains "enrol" c = false ∧ strContains "bio" c = false ∧
        strContains "demo" c = true := by
  intro c hc
  rw [mem_demoCanon_iff] at hc
  rcases hc with rfl | rfl | rfl <;> exact ⟨by decide, by decide, by decide⟩

/-- No canonical value column is one of the three grand-total names. -/
theorem canon_ne_totals :
    ∀ c, (c ∈ enrolCanon ∨ c ∈ bioCanon ∨ c ∈ demoCanon) →
      c ≠ "total_enrol" ∧ c ≠ "total_bio" ∧ c ≠ "total_demo" := by
  intro c hc
  rcases hc with h | h | h
  · rw [mem_enrolCanon_iff] at h
    rcases h with rfl | rfl | rfl <;> exact ⟨by decide, by decide, by decide⟩
  · rw [mem_bioCanon_iff] at h
    rcases h with rfl | rfl | rfl <;> exact ⟨by decide, by decide, by decide⟩
  · rw [mem_demoCanon_iff] at h
    rcases h with rfl | rfl | rfl <;> exact ⟨by decide, by decide, by decide⟩

/-- C1: in the merged table built by the merge-and-total step from three
aggregated category tables whose value columns are (subsets of) the
canonical prefixed columns, every row satisfies
`total_enrol = enrol_0_5 + enrol_5_17 + enrol_18_plus` with an addend column
absent from the table counting as zero, and analogously for `total_bio` and
`total_demo`; every grand-total cell is present (`some`), so no row has a
missing grand total. -/
theorem C1_grand_totals {K : Type} [DecidableEq K] (e b d : KTable K)
    (heS : ∀ c ∈ e.valueCols, c ∈ enrolCanon) (heN : e.valueCols.Nodup)
    (hbS : ∀ c ∈ b.valueCols, c ∈ bioCanon) (hbN : b.valueCols.Nodup)
    (hdS : ∀ c ∈ d.valueCols, c ∈ demoCanon) (hdN : d.valueCols.Nodup)
    (i : ℕ) (hi : i < (merge_and_total e b d).rows.length) :
    ((merge_and_total e b d).cellAt i "total_enrol" =
      some ((enrolCanon.map (fun c =>
        if c ∈ (merge_and_total e b d).valueCols then
          ((merge_and_total e b d).cellAt i c).getD 0
        else 0)).sum)) ∧
    ((merge_and_total e b d).cellAt i "total_bio" =
      some ((bioCanon.map (fun c =>
        if c ∈ (merge_and_total e b d).valueCols then
          ((merge_and_total e b d).cellAt i c).getD 0
        else 0)).sum)) ∧
    ((merge_and_total e b d).cellAt i "total_demo" =
      some ((demoCanon.map (fun c =>
        if c ∈ (merge_and_total e b d).valueCols then
          ((merge_and_total e b d).cellAt i c).getD 0
        else 0)).sum)) := by
  have hdisj1 : ∀ c, c ∈ e.valueCols → c ∈ b.valueCols → False := by
    intro c hce hcb
    have q1 := (enrolCanon_like c (heS c hce)).1
    have q2 := (bioCanon_like c (hbS c hcb)).1
    simp_all
  have hacc1 := mergeAccum_valueCols_spec heN hbN hdisj1
  have hdisj2 : ∀ c, c ∈ (mergeAccum e b).valueCols → c ∈ d.valueCols →
      False := by
    intro c hc hcd
    have q3 := (demoCanon_like c (hdS c hcd)).2.2
    rcases hacc1.2 c hc with hce | hcb
    · have q1 := (enrolCanon_like c (heS c hce)).2.2
      simp_all
    · have q2 := (bioCanon_like c (hbS c hcb)).2.2
      simp_all
  have hacc2 := mergeAccum_valueCols_spec hacc1.1 hdN hdisj2
  have hsub : ∀ c ∈ (mergeStep e b d).valueCols,
      c ∈ enrolCanon ∨ c ∈ bioCanon ∨ c ∈ demoCanon := by
    intro c hc
    rcases hacc2.2 c hc with h | h
    · rcases hacc1.2 c h with h1 | h1
      · exact Or.inl (heS c h1)
      · exact Or.inr (Or.inl (hbS c h1))
    · exact Or.inr (Or.inr (hdS c h))
  have hvN : (mergeStep e b d).valueCols.Nodup := hacc2.1
  unfold merge_and_total at hi ⊢
  set M1 := fillna (mergeStep e b d) with hM1
  have hsubM1 : ∀ c ∈ M1.valueCols,
      c ∈ enrolCanon ∨ c ∈ bioCanon ∨ c ∈ demoCanon := fun c hc => hsub c hc
  have hvN1 : M1.valueCols.Nodup := hvN
  have hfresh1 : "total_enrol" ∉ M1.valueCols := fun h =>
    (canon_ne_totals _ (hsubM1 _ h)).1 rfl
  have hfresh2 : "total_bio" ∉ M1.valueCols := fun h =>
    (canon_ne_totals _ (hsubM1 _ h)).2.1 rfl
  have hT := addTotals_cellAt M1 hfresh1 hfresh2 i
  have hi1 : i < M1.rows.length := by
    have hlen := addTotals_rows_length M1
    omega
  have hr : M1.rows.get? i = some (M1.rows.get ⟨i, hi1⟩) :=
    List.get?_eq_get hi1
  set r := M1.rows.get ⟨i, hi1⟩ with hrdef
  have hcongrAll : ∀ c, (c ∈ enrolCanon ∨ c ∈ bioCanon ∨ c ∈ demoCanon) →
      (if c ∈ (addTotals M1).valueCols then
          ((addTotals M1).cellAt i c).getD 0 else 0) =
        (if c ∈ M1.valueCols then (r.2 c).getD 0 else 0) := by
    intro c hc
    have hne := canon_ne_totals c hc
    have hcell : (addTotals M1).cellAt i c = r.2 c := by
      rw [addTotals_cellAt_other M1 i c hne.1 hne.2.1 hne.2.2,
        cellAt_eq_of_get? hr]
    have hmem : (c ∈ (addTotals M1).valueCols) ↔ (c ∈ M1.valueCols) := by
      rw [addTotals_valueCols]
      simp [hne.1, hne.2.1, hne.2.2]
    exact if_congr hmem (by rw [hcell]) rfl
  have hsubE : ∀ c ∈ M1.valueCols, strContains "enrol" c = true →
      c ∈ enrolCanon := by
    intro c hc hlk
    rcases hsubM1 c hc with h | h | h
    · exact h
    · have := (bioCanon_like c h).1
      simp_all
    · have := (demoCanon_like c h).1
      simp_all
  have hsubB : ∀ c ∈ M1.valueCols, strContains "bio" c = true →
      c ∈ bioCanon := by
    intro c hc hlk
    rcases hsubM1 c hc with h | h | h
    · have := (enrolCanon_like c h).2.1
      simp_all
    · exact h
    · have := (demoCanon_like c h).2.1
      simp_all
  have hsubD : ∀ c ∈ M1.valueCols, strContains "demo" c = true →
      c ∈ demoCanon := by
    intro c hc hlk
    rcases hsubM1 c hc with h | h | h
    · have := (enrolCanon_like c h).2.2
      simp_all
    · have := (bioCanon_like c h).2.2
      simp_all
    · exact h
  refine ⟨?_, ?_, ?_⟩
  · rw [hT.1, hr, Option.map_some']
    refine congrArg some ?_
    rw [filter_like_sum M1.valueCols enrolCanon (fun lc => (r.2 lc).getD 0)
      "enrol" hvN1 (by decide) hsubE (fun c hc => (enrolCanon_like c hc).1)]
    exact congrArg List.sum
      (List.map_congr_left (fun c hc => hcongrAll c (Or.inl hc))).symm
  · rw [hT.2.1, hr, Option.map_some']
    refine congrArg some ?_
    rw [filter_like_sum M1.valueCols bioCanon (fun lc => (r.2 lc).getD 0)
      "bio" hvN1 (by decide) hsubB (fun c hc => (bioCanon_like c hc).2.1)]
    exact congrArg List.sum
      (List.map_congr_left
        (fun c hc => hcongrAll c (Or.inr (Or.inl hc)))).symm
  · rw [hT.2.2, hr, Option.map_some']
    refine congrArg some ?_
    rw [filter_like_sum M1.valueCols demoCanon (fun lc => (r.2 lc).getD 0)
      "demo" hvN1 (by decide) hsubD (fun c hc => (demoCanon_like c hc).2.2)]
    exact congrArg List.sum
      (List.map_congr_left
        (fun c hc => hcongrAll c (Or.inr (Or.inr hc)))).symm

/-- Witness for C1: the merge of a one-row enrolment aggregate, a one-row
biometric aggregate with a different key, and an empty demographic table
satisfies the grand-total equations at row 0 with all three totals present. -/
theorem C1_witness :
    ((merge_and_total eW bW (KTable.empty : KTable ℕ)).cellAt 0 "total_enrol"
      = some ((enrolCanon.map (fun c =>
        if c ∈ (merge_and_total eW bW (KTable.empty : KTable ℕ)).valueCols
        then ((merge_and_total eW bW (KTable.empty : KTable ℕ)).cellAt 0
            c).getD 0
        else 0)).sum)) ∧
    ((merge_and_total eW bW (KTable.empty : KTable ℕ)).cellAt 0 "total_bio"
      = some ((bioCanon.map (fun c =>
        if c ∈ (merge_and_total eW bW (KTable.empty : KTable ℕ)).valueCols
        then ((merge_and_total eW bW (KTable.empty : KTable ℕ)).cellAt 0
            c).getD 0
        else 0)).sum)) ∧
    ((merge_and_total eW bW (KTable.empty : KTable ℕ)).cellAt 0 "total_demo"
      = some ((demoCanon.map (fun c =>
        if c ∈ (merge_and_total eW bW (KTable.empty : KTable ℕ)).valueCols
        then ((merge_and_total eW bW (KTable.empty : KTable ℕ)).cellAt 0
            c).getD 0
        else 0)).sum)) :=
  C1_grand_totals eW bW (KTable.empty : KTable ℕ)
    (by intro c hc
        rw [show eW.valueCols = ["enrol_0_5"] from rfl,
          List.mem_singleton] at hc
        subst hc
        decide)
    (by decide)
    (by intro c hc
        rw [show bW.valueCols = ["bio_0_5"] from rfl,
          List.mem_singleton] at hc
        subst hc
        decide)
    (by decide)
    (by intro c hc
        simp [KTable.empty] at hc)
    (by decide)
    0 (by decide)

/-- The square form used by `zTest` agrees with the source shape of the
trigger, `std > 0` and `(x − mean)/std > 3` with `std = sqrt var`, over the
reals. -/
theorem zTest_eq_real (d v : ℚ) :
    zTest d (some v) = true ↔
      (0 < Real.sqrt (v : ℝ) ∧ 3 < (d : ℝ) / Real.sqrt (v : ℝ)) := by
  unfold zTest
  simp only [Bool.and_eq_true, decide_eq_true_eq]
  constructor
  · rintro ⟨⟨hv, hd⟩, hsq⟩
    have hv0 : (0 : ℝ) < (v : ℝ) := by exact_mod_cast hv
    have hd0 : (0 : ℝ) < (d : ℝ) := by exact_mod_cast hd
    have hsq0 : (9 : ℝ) * v < (d : ℝ) ^ 2 := by exact_mod_cast hsq
    have hs : 0 < Real.sqrt (v : ℝ) := Real.sqrt_pos.2 hv0
    refine ⟨hs, ?_⟩
    rw [lt_div_iff hs]
    nlinarith [Real.sq_sqrt hv0.le, Real.sqrt_nonneg (v : ℝ)]
  · rintro ⟨hs, hz⟩
    have hv0 : (0 : ℝ) < (v : ℝ) := Real.sqrt_pos.1 hs
    rw [lt_div_iff hs] at hz
    have hd0 : (0 : ℝ) < (d : ℝ) := by nlinarith [Real.sqrt_nonneg (v : ℝ)]
    have hsq0 : (9 : ℝ) * v < (d : ℝ) ^ 2 := by
      nlinarith [Real.sq_sqrt hv0.le]
    exact ⟨⟨by exact_mod_cast hv0, by exact_mod_cast hd0⟩,
      by exact_mod_cast hsq0⟩

/-- District mean of the biometric totals in the nine-row scenario. -/
theorem T5_mean_bio : districtMean T5 "D" "total_bio" = 12 := by
  rw [districtMean,
    show (districtRowsOf T5 "D").map (fun r => r.cell "total_bio")
      = [1, 1, 1, 1, 1, 1, 1, 1, 100] from rfl]
  norm_num [meanOf]

/-- District sample variance of the biometric totals in the nine-row
scenario: 33 squared. -/
theorem T5_var_bio : districtVar T5 "D" "total_bio" = some 1089 := by
  rw [districtVar,
    show (districtRowsOf T5 "D").map (fun r => r.cell "total_bio")
      = [1, 1, 1, 1, 1, 1, 1, 1, 100] from rfl]
  norm_num [sampleVar, meanOf]

/-- District mean of the demographic totals in the nine-row scenario. -/
theorem T5_mean_demo : districtMean T5 "D" "total_demo" = 0 := by
  rw [districtMean,
    show (districtRowsOf T5 "D").map (fun r => r.cell "total_demo")
      = [0, 0, 0, 0, 0, 0, 0, 0, 0] from rfl]
  norm_num [meanOf]

/-- District sample variance of the demographic totals in the nine-row
scenario. -/
theorem T5_var_demo : districtVar T5 "D" "total_demo" = some 0 := by
  rw [districtVar,
    show (districtRowsOf T5 "D").map (fun r => r.cell "total_demo")
      = [0, 0, 0, 0, 0, 0, 0, 0, 0] from rfl]
  norm_num [sampleVar, meanOf]

/-- No statistical trigger fires for the 100-valued row. -/
theorem T5_base_100 : baseTags T5 (mkRowD 100) = [] := by
  rw [baseTags, show (mkRowD 100).district = "D" from rfl,
    show (mkRowD 100).cell "total_bio" = 100 from rfl,
    show (mkRowD 100).cell "total_demo" = 0 from rfl,
    T5_mean_bio, T5_var_bio, T5_mean_demo, T5_var_demo]
  norm_num [zTest]

/-- No statistical trigger fires for a 1-valued row. -/
theorem T5_base_1 : baseTags T5 (mkRowD 1) = [] := by
  rw [baseTags, show (mkRowD 1).district = "D" from rfl,
    show (mkRowD 1).cell "total_bio" = 1 from rfl,
    show (mkRowD 1).cell "total_demo" = 0 from rfl,
    T5_mean_bio, T5_var_bio, T5_mean_demo, T5_var_demo]
  norm_num [zTest]

/-- The 100-valued row collects no reason at all. -/
theorem T5_tags_100 : explainReasonTags T5 (mkRowD 100) = [] := by
  simp only [explainReasonTags, T5_base_100, List.isEmpty_nil,
    Bool.true_and]
  rw [show decide ("is_anomaly" ∈ T5.cols) = true from by decide,
    show (mkRowD 100).cell "is_anomaly" = 1 from rfl,
    show decide ((1 : ℚ) = -1) = false from by norm_num]
  simp

/-- A 1-valued row collects no reason at all. -/
theorem T5_tags_1 : explainReasonTags T5 (mkRowD 1) = [] := by
  simp only [explainReasonTags, T5_base_1, List.isEmpty_nil, Bool.true_and]
  rw [show decide ("is_anomaly" ∈ T5.cols) = true from by decide,
    show (mkRowD 1).cell "is_anomaly" = 1 from rfl,
    show decide ((1 : ℚ) = -1) = false from by norm_num]
  simp

/-- The 100-valued row is labelled "Normal". -/
theorem T5_reason_100 : anomalyReasonOf T5 (mkRowD 100) = "Normal" := by
  simp only [anomalyReasonOf, T5_tags_100, List.isEmpty_nil, if_true]

/-- A 1-valued row is labelled "Normal". -/
theorem T5_reason_1 : anomalyReasonOf T5 (mkRowD 1) = "Normal" := by
  simp only [anomalyReasonOf, T5_tags_1, List.isEmpty_nil, if_true]

/-- C5: the claim gives the 100-valued row of the nine-row scenario a
z-score above 3 and a reason string mentioning Biometric Updates.  On the
source arithmetic the district sample deviation is 33, the z-score is
88/33 < 3, the trigger does not fire, and the row is labelled "Normal" with
no biometric-spike reason. -/
theorem C5_counterexample :
    mkRowD 100 ∈ T5.rows ∧
    districtVar T5 "D" "total_bio" = some 1089 ∧
    zTest (100 - districtMean T5 "D" "total_bio")
      (districtVar T5 "D" "total_bio") = false ∧
    Reason.bioSpike ∉ explainReasonTags T5 (mkRowD 100) ∧
    anomalyReasonOf T5 (mkRowD 100) = "Normal" := by
  refine ⟨?_, T5_var_bio, ?_, ?_, T5_reason_100⟩
  · rw [show T5.rows = [mkRowD 1, mkRowD 1, mkRowD 1, mkRowD 1, mkRowD 1,
      mkRowD 1, mkRowD 1, mkRowD 1, mkRowD 100] from rfl]
    simp
  · rw [T5_mean_bio, T5_var_bio]
    norm_num [zTest]
  · rw [T5_tags_100]
    simp

/-- C5 (amended): on the nine-row scenario the district sample variance of
the biometric totals is 1089 (std 33), the top z-score 88/33 does not exceed
3, so no trigger fires and the explanation pass labels all nine rows
"Normal". -/
theorem C5_amended :
    generate_anomaly_explanations T5 =
      some (T5, List.replicate 9 "Normal") := by
  simp only [generate_anomaly_explanations,
    show withTotal T5 "total_bio" "bio_" = T5 from rfl,
    show withTotal T5 "total_demo" "demo_" = T5 from rfl,
    show (decide ("total_bio" ∈ T5.cols) &&
      decide ("total_demo" ∈ T5.cols)) = true from by decide, if_true]
  rw [show T5.rows = [mkRowD 1, mkRowD 1, mkRowD 1, mkRowD 1, mkRowD 1,
    mkRowD 1, mkRowD 1, mkRowD 1, mkRowD 100] from rfl]
  simp [T5_reason_1, T5_reason_100, List.replicate]

/-- C3: evaluation at the failing input.  On a table with no numeric
bio/demo/enrol feature column the source does not pass the table through:
the train step returns `(None, None)` — the table object itself stays in
the heap but the returned frame is `None` — and `load_or_train_model` then
hands `None` to the explanation pass, which fails (modelled `none`) instead
of returning the table unscored. -/
theorem C3_no_features_drops_table (fit : ATable → FittedModel) :
    featureCols T3 = [] ∧
    (train_anomaly_model fit (fun _ => T3) 0).2 = (none, none) ∧
    ((train_anomaly_model fit (fun _ => T3) 0).1 0 = T3) ∧
    load_or_train_model fit (fun _ => T3) 0 = none :=
  ⟨rfl, rfl, rfl, rfl⟩

/-- C8: a row whose district has exactly one row in the current view gets no
statistical spike — the standard-deviation guard fails on the NaN sample
deviation of a one-row group, so the z-score division is skipped — and,
when not ML-flagged, its explanation is "Normal". -/
theorem C8_single_row_district_normal (t : ATable) (i : ℕ)
    (hi : i < t.rows.length)
    (hone : (districtRowsOf t ((t.rows.get ⟨i, hi⟩).district)).length = 1)
    (hflag : ¬("is_anomaly" ∈ t.cols ∧
      (t.rows.get ⟨i, hi⟩).cell "is_anomaly" = -1)) :
    baseTags t (t.rows.get ⟨i, hi⟩) = [] ∧
    anomalyReasonOf t (t.rows.get ⟨i, hi⟩) = "Normal" := by
  set r := t.rows.get ⟨i, hi⟩ with hrdef
  have hvb : districtVar t r.district "total_bio" = none := by
    simp [districtVar, sampleVar, hone]
  have hvd : districtVar t r.district "total_demo" = none := by
    simp [districtVar, sampleVar, hone]
  have hbase : baseTags t r = [] := by
    rw [baseTags, hvb, hvd]
    simp [zTest]
  have htags : explainReasonTags t r = [] := by
    simp only [explainReasonTags, hbase, List.isEmpty_nil, Bool.true_and]
    by_cases hmem : "is_anomaly" ∈ t.cols
    · have hne : ¬(r.cell "is_anomaly" = -1) := fun he => hflag ⟨hmem, he⟩
      simp [hmem, hne]
    · simp [hmem]
  refine ⟨hbase, ?_⟩
  simp only [anomalyReasonOf, htags, List.isEmpty_nil, if_true]

/-- Witness for C8: row 0 of the three-row table lies alone in district A
and is labelled "Normal". -/
theorem C8_witness :
    baseTags T8 (T8.rows.get ⟨0, by decide⟩) = [] ∧
    anomalyReasonOf T8 (T8.rows.get ⟨0, by decide⟩) = "Normal" :=
  C8_single_row_district_normal T8 0 (by decide) (by decide)
    (fun hand => by
      have h1 : (1 : ℚ) = -1 :=
        (show (T8.rows.get ⟨0, by decide⟩).cell "is_anomaly" = 1 from
          rfl).symm.trans hand.2
      norm_num at h1)

/-- C9: the claim says every pre-existing column of the scored table is left
unchanged.  A table already carrying an `is_anomaly` column holding 5 has
that column overwritten with a prediction code, which is never 5. -/
theorem C9_counterexample :
    T9.cellAt 0 "is_anomaly" = some 5 ∧
    ((train_anomaly_model fit0 (fun _ => T9) 0).1 0).cellAt 0 "is_anomaly"
      ≠ some 5 := by
  refine ⟨rfl, ?_⟩
  intro hcontra
  have h1 : some (((1 : ℤ) : ℚ)) = some (5 : ℚ) :=
    (show ((train_anomaly_model fit0 (fun _ => T9) 0).1 0).cellAt 0
        "is_anomaly" = some (((1 : ℤ) : ℚ)) from rfl).symm.trans hcontra
  rw [Option.some.injEq] at h1
  norm_num at h1

/-- Reduction of `train_anomaly_model` on its feature-bearing branch. -/
theorem train_anomaly_model_pos (fit : ATable → FittedModel) (h : Heap)
    (ref : ℕ) (hne : (featureCols (h ref)).isEmpty = false) :
    train_anomaly_model fit h ref =
      (fun r2 => if r2 = ref then
          addColATable (addColATable (h ref) "anomaly_score"
            (fun r => (fit (h ref)).score
              (restrictRow (featureCols (h ref)) r)))
            "is_anomaly"
            (fun r => (((fit (h ref)).classify
              (restrictRow (featureCols (h ref)) r)).toInt : ℚ))
        else h r2, some (fit (h ref)), some ref) := by
  simp only [train_anomaly_model, hne, Bool.false_eq_true, if_false]

/-- Assigning a fresh column leaves the column list appended by it. -/
theorem addColATable_cols_of_not_mem (t : ATable) (name : Col)
    (f : ARow → ℚ) (hn : name ∉ t.cols) :
    (addColATable t name f).cols = t.cols ++ [name] := by
  simp [addColATable, hn]

/-- Assigning a column keeps the row count. -/
theorem addColATable_rows_length (t : ATable) (name : Col) (f : ARow → ℚ) :
    (addColATable t name f).rows.length = t.rows.length := by
  simp [addColATable]

/-- Assigning a column leaves every other column's cells alone. -/
theorem addColATable_cellAt_other (t : ATable) (name : Col) (f : ARow → ℚ)
    (i : ℕ) (c : Col) (hc : c ≠ name) :
    (addColATable t name f).cellAt i c = t.cellAt i c := by
  simp only [ATable.cellAt, addColATable, List.get?_eq_getElem?,
    List.getElem?_map]
  cases hr : t.rows[i]? with
  | none => rfl
  | some r => simp [hc]

/-- Assigning a column leaves every row's district alone. -/
theorem addColATable_district (t : ATable) (name : Col) (f : ARow → ℚ)
    (i : ℕ) :
    ((addColATable t name f).rows.get? i).map ARow.district =
      (t.rows.get? i).map ARow.district := by
  simp only [addColATable, List.get?_eq_getElem?, List.getElem?_map]
  cases hr : t.rows[i]? with
  | none => rfl
  | some r => rfl

/-- The assigned column holds the series value on every row in range. -/
theorem addColATable_cellAt_self (t : ATable) (name : Col) (f : ARow → ℚ)
    (i : ℕ) (hi : i < t.rows.length) :
    (addColATable t name f).cellAt i name =
      some (f (t.rows.get ⟨i, hi⟩)) := by
  have hr : t.rows.get? i = some (t.rows.get ⟨i, hi⟩) := List.get?_eq_get hi
  unfold ATable.cellAt addColATable
  dsimp only
  rw [List.get?_map, hr, Option.map_some', Option.map_some']
  simp

/-- C9 (amended): on a table with at least one numeric feature column and
without the two score columns, `train_anomaly_model` works in place on the
caller's object: it returns the same reference, appends exactly
`anomaly_score` and `is_anomaly`, keeps the row count, every pre-existing
column's cells and every row's district, and leaves every other heap object
alone.  (When a score column already exists it is overwritten instead, as
`C9_counterexample` shows.) -/
theorem C9_amended (fit : ATable → FittedModel) (h : Heap) (ref : ℕ)
    (hfeat : featureCols (h ref) ≠ [])
    (hf1 : "anomaly_score" ∉ (h ref).cols)
    (hf2 : "is_anomaly" ∉ (h ref).cols) :
    (train_anomaly_model fit h ref).2.2 = some ref ∧
    ((train_anomaly_model fit h ref).1 ref).cols =
      (h ref).cols ++ ["anomaly_score", "is_anomaly"] ∧
    ((train_anomaly_model fit h ref).1 ref).rows.length =
      (h ref).rows.length ∧
    (∀ i c, c ∈ (h ref).cols →
      ((train_anomaly_model fit h ref).1 ref).cellAt i c =
        (h ref).cellAt i c) ∧
    (∀ i, (((train_anomaly_model fit h ref).1 ref).rows.get? i).map
        ARow.district = ((h ref).rows.get? i).map ARow.district) ∧
    (∀ r2, r2 ≠ ref → (train_anomaly_model fit h ref).1 r2 = h r2) := by
  have hne : (featureCols (h ref)).isEmpty = false := by
    simp [List.isEmpty_iff, hfeat]
  rw [train_anomaly_model_pos fit h ref hne]
  set df1 := addColATable (h ref) "anomaly_score"
    (fun r => (fit (h ref)).score (restrictRow (featureCols (h ref)) r))
    with hdf1
  set df2 := addColATable df1 "is_anomaly"
    (fun r => (((fit (h ref)).classify
      (restrictRow (featureCols (h ref)) r)).toInt : ℚ)) with hdf2
  have hmem1 : "is_anomaly" ∉ df1.cols := by
    rw [hdf1, addColATable_cols_of_not_mem _ _ _ hf1]
    intro hmem
    rcases List.mem_append.1 hmem with hmem | hmem
    · exact hf2 hmem
    · rw [List.mem_singleton] at hmem
      exact absurd hmem (by decide)
  have hsel : ((fun r2 => if r2 = ref then df2 else h r2, some (fit (h ref)),
      some ref) : Heap × Option FittedModel × Option ℕ).1 ref = df2 := by
    simp
  refine ⟨rfl, ?_, ?_, ?_, ?_, ?_⟩
  · rw [hsel, hdf2, addColATable_cols_of_not_mem _ _ _ hmem1, hdf1,
      addColATable_cols_of_not_mem _ _ _ hf1, List.append_assoc]
    rfl
  · rw [hsel, hdf2, addColATable_rows_length, hdf1,
      addColATable_rows_length]
  · intro i c hc
    have hc1 : c ≠ "anomaly_score" := fun he => hf1 (he ▸ hc)
    have hc2 : c ≠ "is_anomaly" := fun he => hf2 (he ▸ hc)
    rw [hsel, hdf2, addColATable_cellAt_other _ _ _ _ _ hc2, hdf1,
      addColATable_cellAt_other _ _ _ _ _ hc1]
  · intro i
    rw [hsel, hdf2]
    exact (addColATable_district _ _ _ _).trans
      (by rw [hdf1]; exact addColATable_district _ _ _ _)
  · intro r2 hr2
    simp [hr2]

/-- Witness for C9 (amended): the one-row table with a single biometric
feature column, scored with the constant fit. -/
theorem C9_amended_witness :
    (train_anomaly_model fit0 (fun _ => T9w) 0).2.2 = some 0 ∧
    ((train_anomaly_model fit0 (fun _ => T9w) 0).1 0).cols =
      T9w.cols ++ ["anomaly_score", "is_anomaly"] ∧
    ((train_anomaly_model fit0 (fun _ => T9w) 0).1 0).rows.length =
      T9w.rows.length ∧
    (∀ i c, c ∈ T9w.cols →
      ((train_anomaly_model fit0 (fun _ => T9w) 0).1 0).cellAt i c =
        T9w.cellAt i c) ∧
    (∀ i, (((train_anomaly_model fit0 (fun _ => T9w) 0).1 0).rows.get?
        i).map ARow.district = (T9w.rows.get? i).map ARow.district) ∧
    (∀ r2, r2 ≠ 0 → (train_anomaly_model fit0 (fun _ => T9w) 0).1 r2
      = T9w) :=
  C9_amended fit0 (fun _ => T9w) 0 (by decide) (by decide) (by decide)

/-- The statistical reasons list never contains the AI fallback tag. -/
theorem aiFlag_not_mem_baseTags (t : ATable) (r : ARow) :
    Reason.aiFlag ∉ baseTags t r := by
  unfold baseTags
  split <;> split <;> simp

/-- C10: every `is_anomaly` cell written by scoring holds the integer code
−1 or 1 — never a boolean — and the explanation pass treats a row as
ML-flagged exactly when no statistical reason fired, the `is_anomaly` column
exists and it equals −1. -/
theorem C10_is_anomaly_codes (fit : ATable → FittedModel) (h : Heap)
    (ref : ℕ) (hfeat : featureCols (h ref) ≠ []) (i : ℕ)
    (hi : i < ((train_anomaly_model fit h ref).1 ref).rows.length) :
    (((train_anomaly_model fit h ref).1 ref).cellAt i "is_anomaly"
        = some (-1) ∨
      ((train_anomaly_model fit h ref).1 ref).cellAt i "is_anomaly"
        = some 1) ∧
    (∀ (t : ATable) (r : ARow),
      Reason.aiFlag ∈ explainReasonTags t r ↔
        (baseTags t r = [] ∧ "is_anomaly" ∈ t.cols ∧
          r.cell "is_anomaly" = -1)) := by
  have hne : (featureCols (h ref)).isEmpty = false := by
    simp [List.isEmpty_iff, hfeat]
  constructor
  · rw [train_anomaly_model_pos fit h ref hne] at hi ⊢
    set df1 := addColATable (h ref) "anomaly_score"
      (fun r => (fit (h ref)).score (restrictRow (featureCols (h ref)) r))
      with hdf1
    set df2 := addColATable df1 "is_anomaly"
      (fun r => (((fit (h ref)).classify
        (restrictRow (featureCols (h ref)) r)).toInt : ℚ)) with hdf2
    have hsel : ((fun r2 => if r2 = ref then df2 else h r2,
        some (fit (h ref)), some ref) :
        Heap × Option FittedModel × Option ℕ).1 ref = df2 := by
      simp
    rw [hsel] at hi ⊢
    have hi1 : i < df1.rows.length := by
      rw [hdf2, addColATable_rows_length] at hi
      exact hi
    rw [hdf2, addColATable_cellAt_self df1 "is_anomaly" _ i hi1]
    cases hcl : (fit (h ref)).classify
        (restrictRow (featureCols (h ref)) (df1.rows.get ⟨i, hi1⟩)) with
    | anomaly =>
      left
      norm_num [IFClass.toInt]
    | normal =>
      right
      norm_num [IFClass.toInt]
  · intro t r
    simp only [explainReasonTags]
    by_cases hb : ((baseTags t r).isEmpty &&
        decide ("is_anomaly" ∈ t.cols) &&
        decide (r.cell "is_anomaly" = -1)) = true
    · rw [if_pos hb]
      simp only [Bool.and_eq_true, decide_eq_true_eq,
        List.isEmpty_iff] at hb
      simp only [List.mem_singleton, true_iff]
      exact ⟨hb.1.1, hb.1.2, hb.2⟩
    · rw [if_neg hb]
      constructor
      · intro hmem
        exact absurd hmem (aiFlag_not_mem_baseTags t r)
      · rintro ⟨h1, h2, h3⟩
        exact absurd (by
          simp only [Bool.and_eq_true, decide_eq_true_eq,
            List.isEmpty_iff]
          exact ⟨⟨h1, h2⟩, h3⟩) hb

/-- Witness for C10: the scored one-row table under the constant fit has an
integer prediction code in `is_anomaly`. -/
theorem C10_witness :
    ((train_anomaly_model fit0 (fun _ => T9w) 0).1 0).cellAt 0 "is_anomaly"
        = some (-1) ∨
    ((train_anomaly_model fit0 (fun _ => T9w) 0).1 0).cellAt 0 "is_anomaly"
        = some 1 :=
  (C10_is_anomaly_codes fit0 (fun _ => T9w) 0 (by decide) 0 (by decide)).1

end UidaiPipeline
